import Mathlib

/-!
# IPO-alerter: shallow embedding and verification

A shallow embedding of `src/ipo_alert.py` (the IPO alert script): the entry
parser `IPOEntry.from_api_data`, the persistence layer `save_ipo_entries`,
the change detector inside `check_for_new_ipos`, the tiered acquisition chain
`fetch_ipo_data` / `fetch_with_playwright`, and the notification send
`send_telegram_alert`.

Python values coming out of `json` decoding are modelled by `JVal`; a decoded
JSON row (a Python dict) is an association list `RawRecord`; dictionary access
`data[k]` is `RawRecord.get`, which raises `KeyError` (modelled as
`PyError.keyError`) when the key is absent.  Exceptions are modelled with
`Except PyError`.  Network and browser interactions are modelled by outcome
parameters supplied by the environment (one outcome per attempt), and the
observable behaviour of a run (attempts made, sleeps, browser lifecycle,
capability logs) is recorded in an event trace.
-/

set_option linter.unusedVariables false

/-- Python error values that the embedded code can raise. -/
inductive PyError
  | keyError (k : String)
  | typeError
  | httpStatusError (code : Nat)
deriving DecidableEq, Repr

/-- A Python/JSON scalar value as it appears in a decoded API row. -/
inductive JVal
  | str (s : String)
  | num (n : Int)
  | null
deriving DecidableEq, Repr

/-- Python truthiness of a `JVal` (`if data["view"]:`, `url or data["url"]`). -/
def JVal.truthy : JVal → Bool
  | .str s => s ≠ ""
  | .num n => n ≠ 0
  | .null => false

/-- `str(x)` on a JSON scalar, as used by `price=str(data["price"])`. -/
def JVal.pyStr : JVal → String
  | .str s => s
  | .num n => toString n
  | .null => "None"

/-- One raw API row: a decoded JSON object, field name to value. -/
abbrev RawRecord := List (String × JVal)

/-- Python dict access `data[k]`: the value, or `KeyError` when absent. -/
def RawRecord.get (d : RawRecord) (k : String) : Except PyError JVal :=
  match d with
  | [] => .error (.keyError k)
  | (k', v) :: rest => if k' = k then .ok v else RawRecord.get rest k

/-- Character-level tag stripper: models `BeautifulSoup(s, "html.parser").get_text()`
on the flat markup fragments the upstream returns (text outside `<...>` tags). -/
def stripTagsAux : List Char → Bool → List Char
  | [], _ => []
  | c :: cs, true => if c = '>' then stripTagsAux cs false else stripTagsAux cs true
  | c :: cs, false => if c = '<' then stripTagsAux cs true else c :: stripTagsAux cs false

/-- Strip markup tags from a string. -/
def stripTags (s : String) : String :=
  String.mk (stripTagsAux s.data false)

/-- Python `str.strip()`: drop leading and trailing whitespace. -/
def pyStrip (s : String) : String :=
  String.mk (((s.data.dropWhile Char.isWhitespace).reverse.dropWhile
    Char.isWhitespace).reverse)

/-- `BeautifulSoup(v, "html.parser").get_text().strip()`: only defined on strings —
passing a non-string to BeautifulSoup raises `TypeError`. -/
def pyGetText : JVal → Except PyError String
  | .str s => .ok (pyStrip (stripTags s))
  | _ => .error .typeError

/-- `true` when `pat` is a prefix of `s` (character lists). -/
def isPrefixChars : List Char → List Char → Bool
  | [], _ => true
  | _ :: _, [] => false
  | p :: ps, c :: cs => p = c && isPrefixChars ps cs

/-- The suffix of `s` after the first occurrence of `pat`, if any. -/
def afterSub (pat : List Char) : List Char → Option (List Char)
  | [] => none
  | c :: cs =>
    if isPrefixChars pat (c :: cs) then some (List.drop pat.length (c :: cs))
    else afterSub pat cs

/-- The characters of `s` before the first occurrence of `stop`. -/
def takeUntilChar (stop : Char) : List Char → List Char
  | [] => []
  | c :: cs => if c = stop then [] else c :: takeUntilChar stop cs

/-- Models `soup.find("a")` followed by `tag.get("href")` on the anchor fragments
the upstream returns: locate the first `<a` tag, read its `href` attribute value
(quoted with `"` or `'`, else up to a space).  `none` when there is no anchor or
the anchor has no `href` attribute. -/
def extractHref (s : String) : Option String :=
  match afterSub ['<', 'a'] s.data with
  | none => none
  | some rest =>
    let tag := takeUntilChar '>' rest
    match afterSub ['h', 'r', 'e', 'f', '='] tag with
    | none => none
    | some v =>
      match v with
      | [] => none
      | q :: vs =>
        if q = Char.ofNat 34 ∨ q = Char.ofNat 39 then
          some (String.mk (takeUntilChar q vs))
        else
          some (String.mk (takeUntilChar (Char.ofNat 32) (q :: vs)))

/-- The canonical IPO entry produced by `IPOEntry.from_api_data`. -/
structure IPOEntry where
  id : JVal
  symbol : JVal
  symbol_clean : String
  company_name : JVal
  units : JVal
  opening_date : String
  closing_date : String
  issue_manager : JVal
  price : String
  status : String
  url : JVal
deriving DecidableEq, Repr

/-- The `url` extraction step of `from_api_data` applied to `data["view"]`:
`url = None; if data["view"]: soup_view = BeautifulSoup(data["view"], ...);
url_tag = soup_view.find("a"); if url_tag and url_tag.get("href"): url = url_tag["href"]`.
Returns `some` only for a truthy extracted href; BeautifulSoup on a truthy
non-string raises `TypeError`. -/
def extractUrlFromView (v : JVal) : Except PyError (Option JVal) :=
  if v.truthy then
    match v with
    | .str s =>
      match extractHref s with
      | some hr => if hr ≠ "" then .ok (some (.str hr)) else .ok none
      | none => .ok none
    | _ => .error .typeError
  else
    .ok none

/-- `url or data["url"]`: Python `or` short-circuits, so the plain `url` field
is read (and can raise `KeyError`) only when no truthy href was extracted. -/
def urlOrField (url0 : Option JVal) (d : RawRecord) : Except PyError JVal :=
  match url0 with
  | some u => .ok u
  | none => d.get "url"

namespace IPOEntry

/-- `IPOEntry.from_api_data(data)`: normalize one raw API row, in the source's
field-access order (`symbol`, `opening_date`, `closing_date`, `status`, `view`,
then the constructor arguments `id`, `company_name`, `units`, `issue_manager`,
`price`, and finally `url or data["url"]`, where `data["url"]` is only read
when no truthy href was extracted).  A missing key raises `KeyError`. -/
def from_api_data (d : RawRecord) : Except PyError IPOEntry := do
  let symbolV ← d.get "symbol"
  let symbol_clean ← pyGetText symbolV
  let openingV ← d.get "opening_date"
  let opening_date ← pyGetText openingV
  let closingV ← d.get "closing_date"
  let closing_date ← pyGetText closingV
  let statusV ← d.get "status"
  let status ← pyGetText statusV
  let viewV ← d.get "view"
  let url0 ← extractUrlFromView viewV
  let idV ← d.get "id"
  let cnV ← d.get "company_name"
  let unitsV ← d.get "units"
  let imV ← d.get "issue_manager"
  let priceV ← d.get "price"
  let url ← urlOrField url0 d
  Except.ok
    { id := idV, symbol := symbolV, symbol_clean := symbol_clean,
      company_name := cnV, units := unitsV, opening_date := opening_date,
      closing_date := closing_date, issue_manager := imV,
      price := priceV.pyStr, status := status, url := url }

end IPOEntry

/-- `[IPOEntry.from_api_data(item) for item in rows]`: the Python list
comprehension evaluates rows left to right and the first raised exception
aborts the whole comprehension — no later row is parsed. -/
def parseBatch : List RawRecord → Except PyError (List IPOEntry)
  | [] => .ok []
  | r :: rest => do
    let e ← IPOEntry.from_api_data r
    let es ← parseBatch rest
    Except.ok (e :: es)

/-! ## State store (`setup_database`, `get_known_ipo_ids`, `save_ipo_entries`) -/

/-- One row of the `ipo_entries` table: `id` is the `INTEGER PRIMARY KEY`, the
display fields are those bound by the insert, and `first_seen` is the
`DEFAULT CURRENT_TIMESTAMP` column set at insertion time. -/
structure DBRow where
  id : JVal
  symbol_clean : String
  company_name : JVal
  units : JVal
  opening_date : String
  closing_date : String
  issue_manager : JVal
  price : String
  status : String
  url : JVal
  first_seen : Nat
deriving DecidableEq, Repr

/-- The row bound by the `INSERT OR IGNORE` statement for one entry,
with `first_seen` defaulting to the current time. -/
def dbRowOf (e : IPOEntry) (now : Nat) : DBRow :=
  { id := e.id, symbol_clean := e.symbol_clean, company_name := e.company_name,
    units := e.units, opening_date := e.opening_date, closing_date := e.closing_date,
    issue_manager := e.issue_manager, price := e.price, status := e.status,
    url := e.url, first_seen := now }

/-- `INSERT OR IGNORE` of one entry: a row whose primary key `id` is already
present is silently skipped, otherwise the new row is appended. -/
def insert_or_ignore (db : List DBRow) (e : IPOEntry) (now : Nat) : List DBRow :=
  if db.any (fun r => decide (r.id = e.id)) then db else db ++ [dbRowOf e now]

/-- `save_ipo_entries(entries)`: one `INSERT OR IGNORE` per entry, in order. -/
def save_ipo_entries (now : Nat) (db : List DBRow) (entries : List IPOEntry) : List DBRow :=
  entries.foldl (fun acc e => insert_or_ignore acc e now) db

/-- `get_known_ipo_ids()`: `SELECT id FROM ipo_entries`, used as a set. -/
def get_known_ipo_ids (db : List DBRow) : List JVal :=
  db.map DBRow.id

/-! ## Change detection (`check_for_new_ipos`, line 395) -/

/-- The list comprehension
`new_entries = [entry for entry in latest_entries if entry.id not in known_ids]`,
written as the loop it desugars to. -/
def check_new (latest : List IPOEntry) (known : List JVal) : List IPOEntry :=
  match latest with
  | [] => []
  | e :: rest =>
    if e.id ∈ known then check_new rest known
    else e :: check_new rest known

/-- Spec-side change detector, written from the spec's words: "returns exactly
`{e in entries : e.id not in knownIds}`, order-preserving" — a filter keeping
the entries whose id is outside the known set. -/
def detectNewSpec (latest : List IPOEntry) (known : List JVal) : List IPOEntry :=
  latest.filter (fun e => decide (e.id ∉ known))

/-! ## Acquisition chain (`fetch_ipo_data`, `fetch_with_playwright`)

The environment supplies one outcome per attempt; the chain records an event
trace: which tier attempted when, backoff sleeps, capability logs and the
browser lifecycle. -/

/-- Observable events of one poll's acquisition run. -/
inductive Event
  /-- An attempt by a plain direct HTTP client.  The source never makes one
  (the chain starts at cloudscraper); the constructor exists so that the
  spec's claimed first tier can be stated and refuted. -/
  | directAttempt (n : Nat)
  /-- One cloudscraper request attempt (1-based attempt number). -/
  | scraperAttempt (n : Nat)
  /-- One call to `fetch_with_playwright` (1-based attempt number). -/
  | pwAttempt (n : Nat)
  /-- `await asyncio.sleep(seconds)` between retries. -/
  | sleep (seconds : Nat)
  /-- `logger.error("Playwright not available. ...")`. -/
  | logMissingPlaywright
  /-- `browser = await p.firefox.launch(...)`. -/
  | browserLaunch
  /-- `await browser.close()`. -/
  | browserClose
  /-- Exit of the `async with async_playwright() as p` block: stopping the
  driver terminates every browser it launched. -/
  | playwrightStop
deriving DecidableEq, Repr

/-- A decoded JSON response body: top-level keys, each holding a row list
(the only shape the code inspects — it tests `"data" in data` and iterates
`data["data"]`). -/
abbrev Payload := List (String × List RawRecord)

/-- Top-level key lookup in a decoded body (`"data" in data` / `data["data"]`). -/
def payloadLookup (p : Payload) (k : String) : Option (List RawRecord) :=
  match p with
  | [] => none
  | (k', rows) :: rest => if k' = k then some rows else payloadLookup rest k

/-- What the environment does to one cloudscraper attempt. -/
inductive FetchOutcome
  /-- An exception raised while creating the scraper or sending the request. -/
  | exn
  /-- A response with the given status; `body = none` means the body is not
  valid JSON (`response.json()` raises `JSONDecodeError`). -/
  | response (status : Nat) (body : Option Payload)

/-- One cloudscraper attempt (the body of the first `while` loop of
`fetch_ipo_data`): success — returning the parsed entries — requires status
200, a valid-JSON body, the `"data"` key, and every row parsing; any raised
exception (transport, decode, or a `KeyError` from `from_api_data` inside the
comprehension) is caught and makes the attempt a failure. -/
def scraperAttemptResult (o : FetchOutcome) : Option (List IPOEntry) :=
  match o with
  | .exn => none
  | .response status body =>
    if status = 200 then
      match body with
      | none => none
      | some payload =>
        match payloadLookup payload "data" with
        | none => none
        | some rows =>
          match parseBatch rows with
          | .ok entries => some entries
          | .error _ => none
    else none

/-- `MAX_RETRIES = 3`. -/
def MAX_RETRIES : Nat := 3

/-- The cloudscraper retry loop: `while retry_count < MAX_RETRIES`, one attempt
per iteration, returning on success; after a failure the counter is
incremented and, when attempts remain, the loop sleeps `2 ** retry_count`
seconds.  `fuel` bounds the recursion (`MAX_RETRIES` at the call site). -/
def scraperLoop (outcomes : Nat → FetchOutcome) :
    Nat → Nat → Option (List IPOEntry) × List Event
  | 0, _ => (none, [])
  | fuel + 1, rc =>
    if rc < MAX_RETRIES then
      match scraperAttemptResult (outcomes rc) with
      | some entries => (some entries, [.scraperAttempt (rc + 1)])
      | none =>
        if rc + 1 < MAX_RETRIES then
          let rest := scraperLoop outcomes fuel (rc + 1)
          (rest.1, .scraperAttempt (rc + 1) :: .sleep (2 ^ (rc + 1)) :: rest.2)
        else (none, [.scraperAttempt (rc + 1)])
    else (none, [])

/-- What the environment does to one playwright attempt. -/
inductive PwScript
  /-- `p.firefox.launch` itself raises: no browser was acquired. -/
  | launchExn
  /-- An exception after the browser was launched (`goto`, `content`, ...). -/
  | navExn
  /-- The page rendered; `looksJson` is the
  `"application/json" in content or "{" in content` test and `body` the result
  of `json.loads` on the body text (`none` = `JSONDecodeError`). -/
  | content (looksJson : Bool) (body : Option Payload)

/-- `fetch_with_playwright()`: returns the decoded payload or `None`, plus the
event trace of the attempt.  When playwright is not importable the function
logs and returns `None` at once.  Otherwise the whole body runs inside
`try: async with async_playwright() as p: ...` — on success and on the
parse-failure path the code calls `browser.close()` explicitly before
returning; on an exception the `async with` unwinds (stopping the driver,
which tears down its browsers) and the outer `except` returns `None`. -/
def fetch_with_playwright (hasPW : Bool) (s : PwScript) :
    Option Payload × List Event :=
  if hasPW then
    match s with
    | .launchExn => (none, [.playwrightStop])
    | .navExn => (none, [.browserLaunch, .playwrightStop])
    | .content looksJson body =>
      if looksJson then
        match body with
        | some d => (some d, [.browserLaunch, .browserClose, .playwrightStop])
        | none => (none, [.browserLaunch, .browserClose, .playwrightStop])
      else (none, [.browserLaunch, .browserClose, .playwrightStop])
  else (none, [.logMissingPlaywright])

/-- The playwright retry loop of `fetch_ipo_data`: each iteration calls
`fetch_with_playwright`; the result counts as success when it is truthy and
has the `"data"` key, in which case the rows are parsed by a comprehension
that is NOT inside any `try` — a row failing to parse raises out of
`fetch_ipo_data` itself.  On failure the counter is incremented and the loop
sleeps `2 ** retry_count` seconds when attempts remain; after the last
failure the function returns `[]`. -/
def pwLoop (hasPW : Bool) (scripts : Nat → PwScript) :
    Nat → Nat → Except PyError (List IPOEntry) × List Event
  | 0, _ => (.ok [], [])
  | fuel + 1, rc =>
    if rc < MAX_RETRIES then
      let att := fetch_with_playwright hasPW (scripts rc)
      let evs := Event.pwAttempt (rc + 1) :: att.2
      match att.1.bind (fun p => payloadLookup p "data") with
      | some rows => (parseBatch rows, evs)
      | none =>
        if rc + 1 < MAX_RETRIES then
          let rest := pwLoop hasPW scripts fuel (rc + 1)
          (rest.1, evs ++ Event.sleep (2 ^ (rc + 1)) :: rest.2)
        else (.ok [], evs)
    else (.ok [], [])

/-- `fetch_ipo_data()`: first the cloudscraper tier (up to `MAX_RETRIES`
attempts), then, only if that tier exhausted its budget without success, the
playwright tier (up to `MAX_RETRIES` attempts); when both fail the function
logs and returns `[]`.  The result is `Except` because a malformed row in a
successful playwright response raises out of the function. -/
def fetch_ipo_data (outcomes : Nat → FetchOutcome) (hasPW : Bool)
    (scripts : Nat → PwScript) : Except PyError (List IPOEntry) × List Event :=
  let tier1 := scraperLoop outcomes MAX_RETRIES 0
  match tier1.1 with
  | some entries => (.ok entries, tier1.2)
  | none =>
    let tier2 := pwLoop hasPW scripts MAX_RETRIES 0
    (tier2.1, tier1.2 ++ tier2.2)

/-! ## Notification (`send_telegram_alert`) and the poll cycle -/

/-- What the Telegram API does to one send. -/
inductive SendOutcome
  /-- 2xx response. -/
  | ok
  /-- A transport failure: `httpx.RequestError`, which the code catches. -/
  | requestError
  /-- A non-2xx response: `response.raise_for_status()` raises
  `httpx.HTTPStatusError`, which is NOT a `RequestError` and is not caught. -/
  | statusError (code : Nat)

/-- `send_telegram_alert(entry)`: with missing configuration it logs and
returns `False`; a transport error is caught, logged, and returns `False`; a
non-2xx status raises `httpx.HTTPStatusError` out of the function because the
`except httpx.RequestError` clause does not match it. -/
def send_telegram_alert (cfg : Bool) (o : SendOutcome) : Except PyError Bool :=
  if cfg then
    match o with
    | .ok => .ok true
    | .requestError => .ok false
    | .statusError code => .error (.httpStatusError code)
  else .ok false

/-- The alert loop `for entry in new_entries: await send_telegram_alert(entry)`:
returns the ids for which a send was attempted; a raised exception aborts the
loop (and the ids after it are never attempted). -/
def alertLoop (cfg : Bool) (sends : Nat → SendOutcome) :
    List IPOEntry → Nat → Except PyError Unit × List JVal
  | [], _ => (.ok (), [])
  | e :: rest, i =>
    match send_telegram_alert cfg (sends i) with
    | .ok _ =>
      let r := alertLoop cfg sends rest (i + 1)
      (r.1, e.id :: r.2)
    | .error err => (.error err, [e.id])

/-- The tail of `check_for_new_ipos` after the fetch: detect the new entries,
and when there are any, save them and send one alert per entry.  Returns the
cycle outcome, the database after the cycle, and the ids for which an alert
send was attempted.  There is no `try` anywhere in `check_for_new_ipos`: an
exception raised by a send aborts the loop and propagates out. -/
def cycle_after_fetch (now : Nat) (db : List DBRow) (latest : List IPOEntry)
    (cfg : Bool) (sends : Nat → SendOutcome) :
    Except PyError Unit × List DBRow × List JVal :=
  let known := get_known_ipo_ids db
  let newEntries := check_new latest known
  if newEntries.isEmpty then (.ok (), db, [])
  else
    let db' := save_ipo_entries now db newEntries
    let r := alertLoop cfg sends newEntries 0
    (r.1, db', r.2)

/-- One full poll cycle `check_for_new_ipos()`: load the known ids, fetch, and
process.  An exception raised by the fetch (a malformed row in the playwright
tier) or by a send propagates out of the cycle. -/
def check_for_new_ipos (now : Nat) (db : List DBRow)
    (outcomes : Nat → FetchOutcome) (hasPW : Bool) (scripts : Nat → PwScript)
    (cfg : Bool) (sends : Nat → SendOutcome) :
    Except PyError Unit × List DBRow × List JVal :=
  match (fetch_ipo_data outcomes hasPW scripts).1 with
  | .error e => (.error e, db, [])
  | .ok latest => cycle_after_fetch now db latest cfg sends

/-! ## Trace helpers -/

/-- Is the event an attempt by the (nonexistent) direct HTTP tier? -/
def Event.isDirect : Event → Bool
  | .directAttempt _ => true
  | _ => false

/-- Is the event a cloudscraper attempt? -/
def Event.isScraper : Event → Bool
  | .scraperAttempt _ => true
  | _ => false

/-- Is the event a playwright attempt? -/
def Event.isPw : Event → Bool
  | .pwAttempt _ => true
  | _ => false

/-- Is the event a backoff sleep? -/
def Event.isSleep : Event → Bool
  | .sleep _ => true
  | _ => false

/-- Number of cloudscraper attempts in a trace. -/
def scraperCount (t : List Event) : Nat := t.countP Event.isScraper

/-- Number of playwright attempts in a trace. -/
def pwCount (t : List Event) : Nat := t.countP Event.isPw

/-- Number of browser instances still open after a trace: launching opens one,
`browser.close()` closes one, and stopping the playwright driver (exit of the
`async with` block) terminates every browser it launched. -/
def openBrowsers : List Event → Nat → Nat
  | [], n => n
  | .browserLaunch :: es, n => openBrowsers es (n + 1)
  | .browserClose :: es, n => openBrowsers es (n - 1)
  | .playwrightStop :: es, _ => openBrowsers es 0
  | _ :: es, n => openBrowsers es n

/-! ## Helper lemmas -/

/-- The change-detection comprehension is the filter keeping unknown ids. -/
theorem check_new_eq_filter (latest : List IPOEntry) (known : List JVal) :
    check_new latest known = latest.filter (fun e => decide (e.id ∉ known)) := by
  induction latest with
  | nil => rfl
  | cons e rest ih =>
    by_cases h : e.id ∈ known <;> simp [check_new, h, ih]

/-- Inversion of a successful `Except` bind. -/
theorem exceptBind_ok {α β : Type} {x : Except PyError α} {f : α → Except PyError β}
    {b : β} (h : (x >>= f) = .ok b) : ∃ a, x = .ok a ∧ f a = .ok b := by
  cases x with
  | error e => simp [Bind.bind, Except.bind] at h
  | ok a => exact ⟨a, rfl, by simpa [Bind.bind, Except.bind] using h⟩

/-! ## C2 -/

/-- C2: For every fetched entry list and every known-ID set, change detection
returns exactly the entries whose id is not in the known set, preserving the
relative order in which they appeared in the fetched list.  (The embedding is
a pure function of its two arguments, mirroring the source comprehension,
which reads but never mutates `latest_entries` and `known_ids`.) -/
theorem check_new_exact_order_preserving (latest : List IPOEntry) (known : List JVal) :
    check_new latest known = detectNewSpec latest known
    ∧ List.Sublist (check_new latest known) latest
    ∧ (∀ e, e ∈ check_new latest known ↔ e ∈ latest ∧ e.id ∉ known) := by
  have hf := check_new_eq_filter latest known
  refine ⟨hf, ?_, ?_⟩
  · rw [hf]; exact List.filter_sublist latest
  · intro e
    rw [hf, List.mem_filter]
    simp

/-! ## C6 -/

/-- C6: `INSERT OR IGNORE` persistence is idempotent: inserting an entry whose
id is already present is silently ignored, inserting the same entry twice (in
one call or across calls, even at a later timestamp `now'`) leaves exactly one
row with that id, and an existing row with that id is left entirely unchanged.
The hypothesis is the `PRIMARY KEY` invariant: the table holds at most one row
per id. -/
theorem save_ipo_entries_idempotent (db : List DBRow) (e : IPOEntry) (now now' : Nat)
    (hpk : (db.filter (fun r => decide (r.id = e.id))).length ≤ 1) :
    save_ipo_entries now' (save_ipo_entries now db [e]) [e] = save_ipo_entries now db [e]
    ∧ save_ipo_entries now db [e, e] = save_ipo_entries now db [e]
    ∧ ((save_ipo_entries now db [e]).filter (fun r => decide (r.id = e.id))).length = 1
    ∧ (∀ r ∈ db, r.id = e.id → save_ipo_entries now db [e] = db) := by
  simp only [save_ipo_entries, List.foldl_cons, List.foldl_nil]
  by_cases hany : db.any (fun r => decide (r.id = e.id))
  · have hdb : insert_or_ignore db e now = db := by simp [insert_or_ignore, hany]
    have hdb' : insert_or_ignore db e now' = db := by simp [insert_or_ignore, hany]
    have hlen : 1 ≤ (db.filter (fun r => decide (r.id = e.id))).length := by
      rw [List.any_eq_true] at hany
      obtain ⟨r, hr, hid⟩ := hany
      have hmem : r ∈ db.filter (fun r => decide (r.id = e.id)) :=
        List.mem_filter.mpr ⟨hr, hid⟩
      have := List.length_pos_of_mem hmem
      omega
    refine ⟨by rw [hdb, hdb'], by rw [hdb, hdb], by rw [hdb]; omega, fun r hr _ => hdb⟩
  · have hdb : insert_or_ignore db e now = db ++ [dbRowOf e now] := by
      simp [insert_or_ignore, hany]
    have hrowid : (dbRowOf e now).id = e.id := rfl
    have hany2 : (db ++ [dbRowOf e now]).any (fun r => decide (r.id = e.id)) = true := by
      rw [List.any_eq_true]
      exact ⟨dbRowOf e now, by simp, by simp [hrowid]⟩
    have hfilter : db.filter (fun r => decide (r.id = e.id)) = [] := by
      rw [List.filter_eq_nil_iff]
      intro r hr
      simp only [decide_eq_true_eq]
      intro hid
      have : db.any (fun r => decide (r.id = e.id)) = true :=
        List.any_eq_true.mpr ⟨r, hr, by simp [hid]⟩
      exact absurd this (by simpa using hany)
    refine ⟨?_, ?_, ?_, ?_⟩
    · rw [hdb]; simp [insert_or_ignore, hany2]
    · rw [hdb]; simp [insert_or_ignore, hany2]
    · rw [hdb, List.filter_append, hfilter]
      simp [hrowid]
    · intro r hr hid
      exfalso
      have : db.any (fun r => decide (r.id = e.id)) = true :=
        List.any_eq_true.mpr ⟨r, hr, by simp [hid]⟩
      exact absurd this (by simpa using hany)

/-- Witness for C6 at a concrete database and entry. -/
theorem save_ipo_entries_idempotent_witness :
    save_ipo_entries 1 (save_ipo_entries 0 [] [⟨.num 1, .str "s", "S", .str "c", .str "u",
      "o", "c", .str "m", "100", "Open", .null⟩]) [⟨.num 1, .str "s", "S", .str "c", .str "u",
      "o", "c", .str "m", "100", "Open", .null⟩] =
    save_ipo_entries 0 [] [⟨.num 1, .str "s", "S", .str "c", .str "u",
      "o", "c", .str "m", "100", "Open", .null⟩] :=
  (save_ipo_entries_idempotent [] ⟨.num 1, .str "s", "S", .str "c", .str "u",
      "o", "c", .str "m", "100", "Open", .null⟩ 0 1 (by decide)).1

/-! ## C9 -/

/-- C9: In every attempt of the browser-automation tier, on every exit path —
success, parse failure, or exception — no browser instance survives past the
attempt: the explicit `browser.close()` calls cover the success and
parse-failure paths, and the exit of the `async with async_playwright()` block
(which stops the driver and with it every browser it launched) covers the
exception paths.  Holds for every script and also when playwright is absent
(no browser is launched at all). -/
theorem playwright_browser_released_every_path (hasPW : Bool) (s : PwScript) :
    openBrowsers (fetch_with_playwright hasPW s).2 0 = 0 := by
  cases hasPW with
  | false => rfl
  | true =>
    cases s with
    | launchExn => rfl
    | navExn => rfl
    | content looksJson body =>
      cases looksJson <;> cases body <;> rfl

/-! ## C10 -/

/-- C10: When one fetched list contains two entries sharing an id that is not
yet known, change detection keeps both copies (no deduplication within the
batch), the alert loop attempts one send per copy, and the insert-if-absent
persistence stores only the first copy's fields as the single row for that
id.  The send hypothesis rules out the raising `statusError` outcome, under
which the loop would abort early. -/
theorem duplicate_id_batch_behaviour (now : Nat) (db : List DBRow)
    (e1 e2 : IPOEntry) (cfg : Bool) (sends : Nat → SendOutcome)
    (hid : e2.id = e1.id)
    (hfresh : ∀ r ∈ db, r.id ≠ e1.id)
    (hsends : ∀ n, sends n = SendOutcome.ok ∨ sends n = SendOutcome.requestError) :
    check_new [e1, e2] (get_known_ipo_ids db) = [e1, e2]
    ∧ (cycle_after_fetch now db [e1, e2] cfg sends).2.2 = [e1.id, e2.id]
    ∧ ((cycle_after_fetch now db [e1, e2] cfg sends).2.1).filter
        (fun r => decide (r.id = e1.id)) = [dbRowOf e1 now] := by
  have hnotmem : e1.id ∉ get_known_ipo_ids db := by
    simp only [get_known_ipo_ids, List.mem_map]
    rintro ⟨r, hr, hid'⟩
    exact hfresh r hr hid'
  have hnotmem2 : e2.id ∉ get_known_ipo_ids db := by rw [hid]; exact hnotmem
  have hdetect : check_new [e1, e2] (get_known_ipo_ids db) = [e1, e2] := by
    simp [check_new, hnotmem, hnotmem2]
  have hsend1 : ∃ b, send_telegram_alert cfg (sends 0) = .ok b := by
    cases cfg with
    | false => exact ⟨false, rfl⟩
    | true =>
      rcases hsends 0 with h | h <;> rw [h] <;> exact ⟨_, rfl⟩
  have hsend2 : ∃ b, send_telegram_alert cfg (sends 1) = .ok b := by
    cases cfg with
    | false => exact ⟨false, rfl⟩
    | true =>
      rcases hsends 1 with h | h <;> rw [h] <;> exact ⟨_, rfl⟩
  obtain ⟨b1, hb1⟩ := hsend1
  obtain ⟨b2, hb2⟩ := hsend2
  have halert : alertLoop cfg sends [e1, e2] 0 = (.ok (), [e1.id, e2.id]) := by
    simp [alertLoop, hb1, hb2]
  have hany1 : db.any (fun r => decide (r.id = e1.id)) = false := by
    rw [List.any_eq_false]
    intro r hr
    simp only [decide_eq_true_eq]
    exact hfresh r hr
  have hins1 : insert_or_ignore db e1 now = db ++ [dbRowOf e1 now] := by
    simp [insert_or_ignore, hany1]
  have hany2 : (db ++ [dbRowOf e1 now]).any (fun r => decide (r.id = e2.id)) = true := by
    rw [List.any_eq_true]
    exact ⟨dbRowOf e1 now, by simp, by simp [dbRowOf, hid]⟩
  have hsave : save_ipo_entries now db [e1, e2] = db ++ [dbRowOf e1 now] := by
    simp only [save_ipo_entries, List.foldl_cons, List.foldl_nil, hins1]
    simp [insert_or_ignore, hany2]
  have hfilterdb : db.filter (fun r => decide (r.id = e1.id)) = [] := by
    rw [List.filter_eq_nil_iff]
    intro r hr
    simp only [decide_eq_true_eq]
    exact hfresh r hr
  refine ⟨hdetect, ?_, ?_⟩
  · simp only [cycle_after_fetch, hdetect, List.isEmpty_cons, Bool.false_eq_true,
      if_false, halert]
  · simp only [cycle_after_fetch, hdetect, List.isEmpty_cons, Bool.false_eq_true,
      if_false, hsave, halert, List.filter_append, hfilterdb]
    simp [dbRowOf]

/-- Witness for C10 at concrete entries and an empty database. -/
theorem duplicate_id_batch_behaviour_witness :
    check_new [⟨.num 9, .str "x", "X", .str "c", .str "u", "o", "cl", .str "m", "1", "Open", .null⟩,
               ⟨.num 9, .str "y", "Y", .str "d", .str "v", "o2", "cl2", .str "n", "2", "Open", .null⟩]
      (get_known_ipo_ids []) =
      [⟨.num 9, .str "x", "X", .str "c", .str "u", "o", "cl", .str "m", "1", "Open", .null⟩,
       ⟨.num 9, .str "y", "Y", .str "d", .str "v", "o2", "cl2", .str "n", "2", "Open", .null⟩] :=
  (duplicate_id_batch_behaviour 0 []
    ⟨.num 9, .str "x", "X", .str "c", .str "u", "o", "cl", .str "m", "1", "Open", .null⟩
    ⟨.num 9, .str "y", "Y", .str "d", .str "v", "o2", "cl2", .str "n", "2", "Open", .null⟩
    true (fun _ => SendOutcome.ok) rfl (by simp) (fun n => Or.inl rfl)).1

/-! ## Concrete records -/

/-- The spec's scenario row (id 101), with the anchor href in double quotes.
It carries no plain `url` key: since the embedded link is extracted and
truthy, `data["url"]` is never read (Python `or` short-circuits). -/
def goodRec : RawRecord :=
  [("id", .num 101), ("symbol", .str "<span>ABC</span>"),
   ("company_name", .str "Alpha Co"),
   ("opening_date", .str "<span>2024-01-01</span>"),
   ("closing_date", .str "<span>2024-01-05</span>"),
   ("status", .str "<span>Open</span>"),
   ("view", .str "<a href=\"https://x/101\">view</a>"),
   ("units", .str "1000"), ("issue_manager", .str "Mgr"), ("price", .num 100)]

/-- The entry `goodRec` parses to. -/
def goodEntry : IPOEntry :=
  { id := .num 101, symbol := .str "<span>ABC</span>", symbol_clean := "ABC",
    company_name := .str "Alpha Co", units := .str "1000",
    opening_date := "2024-01-01", closing_date := "2024-01-05",
    issue_manager := .str "Mgr", price := "100", status := "Open",
    url := .str "https://x/101" }

/-- A second well-formed row (id 102). -/
def goodRec2 : RawRecord :=
  [("id", .num 102), ("symbol", .str "<span>DEF</span>"),
   ("company_name", .str "Beta Co"),
   ("opening_date", .str "<span>2024-02-01</span>"),
   ("closing_date", .str "<span>2024-02-05</span>"),
   ("status", .str "<span>Open</span>"),
   ("view", .str "<a href=\"https://x/102\">view</a>"),
   ("units", .str "2000"), ("issue_manager", .str "Mgr2"), ("price", .num 200)]

/-- A partial row: it has an `id` but lacks `symbol` (and the other fields). -/
def badRec : RawRecord := [("id", .num 5)]

/-- A row with every field the parser touches except that its link field is
empty (no anchor to extract) and it has no plain `url` key. -/
def noUrlRec : RawRecord :=
  [("id", .num 7), ("symbol", .str "S"), ("company_name", .str "C"),
   ("units", .str "10"), ("opening_date", .str "d1"), ("closing_date", .str "d2"),
   ("issue_manager", .str "M"), ("price", .num 100), ("status", .str "Open"),
   ("view", .str "")]

/-! ## C3 -/

/-- C3 (code evaluation at the failing input): a record missing a required
field raises `KeyError` — there is no `MalformedRecordError` and no
skip-and-log — and the exception aborts the WHOLE batch comprehension: with
the malformed record first, the well-formed record after it is never parsed;
with the malformed record last, the already-parsed entries are discarded.
Alone, the well-formed record parses fine, so the batch failure is caused by
the single partial row. -/
theorem malformed_record_aborts_whole_batch :
    parseBatch [badRec, goodRec] = .error (.keyError "symbol")
    ∧ parseBatch [goodRec, badRec] = .error (.keyError "symbol")
    ∧ parseBatch [goodRec] = .ok [goodEntry] :=
  ⟨rfl, rfl, rfl⟩

/-! ## C7 -/

/-- C7 (counterexample): for a raw record with neither an extractable anchor
in its link field (here `view` is the empty string) nor a plain `url` field,
parsing does NOT succeed with an empty/unset url — `url or data["url"]`
evaluates `data["url"]` and raises `KeyError("url")`. -/
theorem url_neither_source_fails_counterexample :
    IPOEntry.from_api_data noUrlRec = .error (.keyError "url") := rfl

/-- C7 (amended): on every successful parse, the entry's url is either the
truthy href extracted from the anchor in the `view` field, or — exactly when
no truthy href was extracted — the value of the record's plain `url` field,
which therefore must be present: a record with neither an extractable anchor
nor a `url` key fails parsing with `KeyError("url")` instead of succeeding
with an unset url. -/
theorem url_precedence_amended (d : RawRecord) (e : IPOEntry)
    (h : IPOEntry.from_api_data d = .ok e) :
    (∃ viewV, d.get "view" = .ok viewV ∧ extractUrlFromView viewV = .ok (some e.url))
    ∨ (∃ viewV, d.get "view" = .ok viewV ∧ extractUrlFromView viewV = .ok none
        ∧ d.get "url" = .ok e.url) := by
  simp only [IPOEntry.from_api_data] at h
  obtain ⟨symbolV, h1, h⟩ := exceptBind_ok h
  obtain ⟨symbol_clean, h2, h⟩ := exceptBind_ok h
  obtain ⟨openingV, h3, h⟩ := exceptBind_ok h
  obtain ⟨opening_date, h4, h⟩ := exceptBind_ok h
  obtain ⟨closingV, h5, h⟩ := exceptBind_ok h
  obtain ⟨closing_date, h6, h⟩ := exceptBind_ok h
  obtain ⟨statusV, h7, h⟩ := exceptBind_ok h
  obtain ⟨status, h8, h⟩ := exceptBind_ok h
  obtain ⟨viewV, h9, h⟩ := exceptBind_ok h
  obtain ⟨url0, h10, h⟩ := exceptBind_ok h
  obtain ⟨idV, h11, h⟩ := exceptBind_ok h
  obtain ⟨cnV, h12, h⟩ := exceptBind_ok h
  obtain ⟨unitsV, h13, h⟩ := exceptBind_ok h
  obtain ⟨imV, h14, h⟩ := exceptBind_ok h
  obtain ⟨priceV, h15, h⟩ := exceptBind_ok h
  obtain ⟨url, h16, h⟩ := exceptBind_ok h
  injection h with h'
  subst h'
  cases url0 with
  | some u =>
    left
    refine ⟨viewV, h9, ?_⟩
    show extractUrlFromView viewV = Except.ok (some url)
    have hu : url = u := by
      have : u = url := by simpa [urlOrField] using h16
      exact this.symm
    rw [hu]
    exact h10
  | none =>
    right
    refine ⟨viewV, h9, h10, ?_⟩
    show RawRecord.get d "url" = Except.ok url
    simpa [urlOrField] using h16

/-- Witness for C7 (amended) at the spec's scenario record: the anchor href
wins and `data["url"]` is never needed. -/
theorem url_precedence_amended_witness :
    (∃ viewV, goodRec.get "view" = .ok viewV
      ∧ extractUrlFromView viewV = .ok (some goodEntry.url))
    ∨ (∃ viewV, goodRec.get "view" = .ok viewV ∧ extractUrlFromView viewV = .ok none
        ∧ goodRec.get "url" = .ok goodEntry.url) :=
  url_precedence_amended goodRec goodEntry rfl

/-! ## C4 -/

/-- Environment in which every fetch attempt immediately returns a 200
response whose `data` array holds the two well-formed rows. -/
def okOutcomeTwo : Nat → FetchOutcome :=
  fun _ => .response 200 (some [("data", [goodRec, goodRec2])])

/-- Telegram returns a 400 status to the first send and 2xx afterwards. -/
def firstSendFails : Nat → SendOutcome :=
  fun n => if n = 0 then .statusError 400 else .ok

/-- A playwright script (never reached in the C4 run). -/
def launchFailScript : Nat → PwScript := fun _ => PwScript.launchExn

/-- C4 (code evaluation at the failing input): with two new entries in one
cycle and the Telegram API answering 400 to the first send,
`response.raise_for_status()` raises `httpx.HTTPStatusError` — which the
`except httpx.RequestError` clause does NOT catch — so the exception aborts
the alert loop (the second entry's send is never attempted) and propagates
out of `check_for_new_ipos`, contradicting both halves of the claim; the two
rows were already persisted before the sends. -/
theorem alert_status_error_escapes_cycle :
    (check_for_new_ipos 0 [] okOutcomeTwo true launchFailScript true firstSendFails).1
      = .error (.httpStatusError 400)
    ∧ (check_for_new_ipos 0 [] okOutcomeTwo true launchFailScript true firstSendFails).2.2
      = [JVal.num 101]
    ∧ (check_for_new_ipos 0 [] okOutcomeTwo true launchFailScript true firstSendFails).2.1.length
      = 2 :=
  ⟨rfl, rfl, rfl⟩

/-! ## Acquisition-chain helper lemmas -/

/-- The trace of one `fetch_with_playwright` call holds no scraper, playwright
or direct-HTTP attempt events (those are recorded by the loops around it). -/
theorem fetch_with_playwright_counts (hasPW : Bool) (s : PwScript) :
    (fetch_with_playwright hasPW s).2.countP Event.isScraper = 0
    ∧ (fetch_with_playwright hasPW s).2.countP Event.isPw = 0
    ∧ (fetch_with_playwright hasPW s).2.countP Event.isDirect = 0 := by
  cases hasPW with
  | false => exact ⟨rfl, rfl, rfl⟩
  | true =>
    cases s with
    | launchExn => exact ⟨rfl, rfl, rfl⟩
    | navExn => exact ⟨rfl, rfl, rfl⟩
    | content looksJson body =>
      cases looksJson <;> cases body <;> exact ⟨rfl, rfl, rfl⟩

/-- Full unfolding of the cloudscraper retry loop: each failed attempt is
followed by a `2 ^ retry_count` backoff sleep while attempts remain, and the
loop stops at the first success. -/
theorem scraperLoop_trace (outcomes : Nat → FetchOutcome) :
    scraperLoop outcomes MAX_RETRIES 0 =
      match scraperAttemptResult (outcomes 0) with
      | some r => (some r, [.scraperAttempt 1])
      | none =>
        match scraperAttemptResult (outcomes 1) with
        | some r => (some r, [.scraperAttempt 1, .sleep (2 ^ 1), .scraperAttempt 2])
        | none =>
          match scraperAttemptResult (outcomes 2) with
          | some r => (some r, [.scraperAttempt 1, .sleep (2 ^ 1), .scraperAttempt 2,
              .sleep (2 ^ 2), .scraperAttempt 3])
          | none => (none, [.scraperAttempt 1, .sleep (2 ^ 1), .scraperAttempt 2,
              .sleep (2 ^ 2), .scraperAttempt 3]) := by
  rcases h0 : scraperAttemptResult (outcomes 0) with _ | r0 <;>
    rcases h1 : scraperAttemptResult (outcomes 1) with _ | r1 <;>
      rcases h2 : scraperAttemptResult (outcomes 2) with _ | r2 <;>
        simp [scraperLoop, MAX_RETRIES, h0, h1, h2]

/-- Counts over the playwright retry loop's trace: no scraper or direct
events, and between 1 and 3 playwright attempts. -/
theorem pwLoop_counts (hasPW : Bool) (scripts : Nat → PwScript) :
    (pwLoop hasPW scripts MAX_RETRIES 0).2.countP Event.isScraper = 0
    ∧ (pwLoop hasPW scripts MAX_RETRIES 0).2.countP Event.isDirect = 0
    ∧ 1 ≤ (pwLoop hasPW scripts MAX_RETRIES 0).2.countP Event.isPw
    ∧ (pwLoop hasPW scripts MAX_RETRIES 0).2.countP Event.isPw ≤ 3 := by
  obtain ⟨c0s, c0p, c0d⟩ := fetch_with_playwright_counts hasPW (scripts 0)
  obtain ⟨c1s, c1p, c1d⟩ := fetch_with_playwright_counts hasPW (scripts 1)
  obtain ⟨c2s, c2p, c2d⟩ := fetch_with_playwright_counts hasPW (scripts 2)
  rcases h0 : (fetch_with_playwright hasPW (scripts 0)).1.bind
      (fun p => payloadLookup p "data") with _ | rows0 <;>
    rcases h1 : (fetch_with_playwright hasPW (scripts 1)).1.bind
        (fun p => payloadLookup p "data") with _ | rows1 <;>
      rcases h2 : (fetch_with_playwright hasPW (scripts 2)).1.bind
          (fun p => payloadLookup p "data") with _ | rows2 <;>
        simp [pwLoop, MAX_RETRIES, h0, h1, h2, List.countP_append, List.countP_cons,
          c0s, c0p, c0d, c1s, c1p, c1d, c2s, c2p, c2d,
          Event.isScraper, Event.isPw, Event.isDirect]

/-- When all three cloudscraper attempts fail, the chain's outcome is the
playwright loop's outcome and its trace is the full scraper-tier trace
followed by the playwright loop's trace. -/
theorem fetch_trace_split_all_fail (outcomes : Nat → FetchOutcome) (hasPW : Bool)
    (scripts : Nat → PwScript)
    (h : ∀ n, n < 3 → scraperAttemptResult (outcomes n) = none) :
    fetch_ipo_data outcomes hasPW scripts =
      ((pwLoop hasPW scripts MAX_RETRIES 0).1,
        [.scraperAttempt 1, .sleep (2 ^ 1), .scraperAttempt 2,
         .sleep (2 ^ 2), .scraperAttempt 3] ++ (pwLoop hasPW scripts MAX_RETRIES 0).2) := by
  have hs : scraperLoop outcomes MAX_RETRIES 0 =
      (none, [.scraperAttempt 1, .sleep (2 ^ 1), .scraperAttempt 2,
        .sleep (2 ^ 2), .scraperAttempt 3]) := by
    rw [scraperLoop_trace, h 0 (by omega), h 1 (by omega), h 2 (by omega)]
  simp [fetch_ipo_data, hs]

/-! ## C1 -/

/-- Environment in which every cloudscraper attempt raises. -/
def allExn : Nat → FetchOutcome := fun _ => FetchOutcome.exn

/-- C1 (counterexample): the very first attempt the acquisition chain makes is
a cloudscraper (fingerprint-evading) attempt, and no direct-HTTP attempt
occurs anywhere in the run — refuting the claimed first tier (a direct HTTP
client with a single attempt and a fixed 30-second timeout), which does not
exist in the code. -/
theorem chain_first_attempt_is_scraper_counterexample :
    (fetch_ipo_data allExn false launchFailScript).2.head? = some (.scraperAttempt 1)
    ∧ (fetch_ipo_data allExn false launchFailScript).2.countP Event.isDirect = 0 :=
  ⟨rfl, rfl⟩

/-- C1 (amended): the acquisition chain has exactly two tiers, attempted
strictly in order — the TLS-fingerprint-evading client with up to 3 attempts,
then the browser-automation fallback with up to 3 attempts — moving to the
second tier only when the first exhausts its 3-attempt budget, and making no
direct-HTTP attempt at all. -/
theorem acquisition_chain_two_tiers (outcomes : Nat → FetchOutcome) (hasPW : Bool)
    (scripts : Nat → PwScript) :
    ((fetch_ipo_data outcomes hasPW scripts).2.countP Event.isDirect = 0)
    ∧ (∃ t1 t2, (fetch_ipo_data outcomes hasPW scripts).2 = t1 ++ t2
        ∧ t1.countP Event.isPw = 0 ∧ t2.countP Event.isScraper = 0)
    ∧ 1 ≤ scraperCount (fetch_ipo_data outcomes hasPW scripts).2
    ∧ scraperCount (fetch_ipo_data outcomes hasPW scripts).2 ≤ 3
    ∧ pwCount (fetch_ipo_data outcomes hasPW scripts).2 ≤ 3
    ∧ (0 < pwCount (fetch_ipo_data outcomes hasPW scripts).2 →
        scraperCount (fetch_ipo_data outcomes hasPW scripts).2 = 3
        ∧ ∀ n, n < 3 → scraperAttemptResult (outcomes n) = none)
    ∧ ((∀ n, n < 3 → scraperAttemptResult (outcomes n) = none) →
        0 < pwCount (fetch_ipo_data outcomes hasPW scripts).2) := by
  obtain ⟨ps, pd, pge, ple⟩ := pwLoop_counts hasPW scripts
  rcases h0 : scraperAttemptResult (outcomes 0) with _ | r0
  · rcases h1 : scraperAttemptResult (outcomes 1) with _ | r1
    · rcases h2 : scraperAttemptResult (outcomes 2) with _ | r2
      · -- all three attempts fail: the playwright tier runs
        have hsplit := fetch_trace_split_all_fail outcomes hasPW scripts
          (by intro n hn; interval_cases n <;> assumption)
        rw [hsplit]
        have hsd : List.countP Event.isDirect
            ([.scraperAttempt 1, .sleep (2 ^ 1), .scraperAttempt 2,
              .sleep (2 ^ 2), .scraperAttempt 3] : List Event) = 0 := by decide
        have hss : List.countP Event.isScraper
            ([.scraperAttempt 1, .sleep (2 ^ 1), .scraperAttempt 2,
              .sleep (2 ^ 2), .scraperAttempt 3] : List Event) = 3 := by decide
        have hsp : List.countP Event.isPw
            ([.scraperAttempt 1, .sleep (2 ^ 1), .scraperAttempt 2,
              .sleep (2 ^ 2), .scraperAttempt 3] : List Event) = 0 := by decide
        refine ⟨?_, ⟨_, _, rfl, hsp, ps⟩, ?_, ?_, ?_, ?_, ?_⟩
        · simp only [List.countP_append, hsd, pd]
        · simp only [scraperCount, List.countP_append, hss, ps]
          omega
        · simp only [scraperCount, List.countP_append, hss, ps]
          omega
        · simp only [pwCount, List.countP_append, hsp]
          omega
        · intro _
          refine ⟨by simp only [scraperCount, List.countP_append, hss, ps], ?_⟩
          intro n hn
          interval_cases n <;> assumption
        · intro _
          simp only [pwCount, List.countP_append, hsp]
          omega
      · -- third attempt succeeds
        have hs : scraperLoop outcomes MAX_RETRIES 0 = (some r2,
            [.scraperAttempt 1, .sleep (2 ^ 1), .scraperAttempt 2,
             .sleep (2 ^ 2), .scraperAttempt 3]) := by
          rw [scraperLoop_trace, h0, h1, h2]
        have hf : fetch_ipo_data outcomes hasPW scripts = (.ok r2,
            [.scraperAttempt 1, .sleep (2 ^ 1), .scraperAttempt 2,
             .sleep (2 ^ 2), .scraperAttempt 3]) := by
          simp [fetch_ipo_data, hs]
        rw [hf]
        dsimp only
        refine ⟨by decide,
          ⟨[.scraperAttempt 1, .sleep (2 ^ 1), .scraperAttempt 2,
            .sleep (2 ^ 2), .scraperAttempt 3], [], by simp, by decide, by decide⟩,
          by decide, by decide, by decide, ?_, ?_⟩
        · intro hpw
          exact absurd hpw (by decide)
        · intro hall
          exact absurd (hall 2 (by omega)) (by simp [h2])
    · -- second attempt succeeds
      have hs : scraperLoop outcomes MAX_RETRIES 0 = (some r1,
          [.scraperAttempt 1, .sleep (2 ^ 1), .scraperAttempt 2]) := by
        rw [scraperLoop_trace, h0, h1]
      have hf : fetch_ipo_data outcomes hasPW scripts = (.ok r1,
          [.scraperAttempt 1, .sleep (2 ^ 1), .scraperAttempt 2]) := by
        simp [fetch_ipo_data, hs]
      rw [hf]
      dsimp only
      refine ⟨by decide,
        ⟨[.scraperAttempt 1, .sleep (2 ^ 1), .scraperAttempt 2], [], by simp,
          by decide, by decide⟩,
        by decide, by decide, by decide, ?_, ?_⟩
      · intro hpw
        exact absurd hpw (by decide)
      · intro hall
        exact absurd (hall 1 (by omega)) (by simp [h1])
  · -- first attempt succeeds
    have hs : scraperLoop outcomes MAX_RETRIES 0 = (some r0, [.scraperAttempt 1]) := by
      rw [scraperLoop_trace, h0]
    have hf : fetch_ipo_data outcomes hasPW scripts = (.ok r0, [.scraperAttempt 1]) := by
      simp [fetch_ipo_data, hs]
    rw [hf]
    dsimp only
    refine ⟨by decide, ⟨[.scraperAttempt 1], [], by simp, by decide, by decide⟩,
      by decide, by decide, by decide, ?_, ?_⟩
    · intro hpw
      exact absurd hpw (by decide)
    · intro hall
      exact absurd (hall 0 (by omega)) (by simp [h0])

/-- Witness for C1 (amended) at a concrete failing environment: the playwright
tier does run, so the first tier made all 3 of its attempts. -/
theorem acquisition_chain_two_tiers_witness :
    scraperCount (fetch_ipo_data allExn false launchFailScript).2 = 3 :=
  ((acquisition_chain_two_tiers allExn false launchFailScript).2.2.2.2.2.1
    (by decide)).1

/-! ## C5 -/

/-- C5 (counterexample): with every cloudscraper attempt failing and
playwright unavailable, the chain does return `.ok []` with no error and does
log the missing capability — but it does NOT fail immediately after the
second tier exhausts its retries: after the last cloudscraper attempt (the
first 5 events) the run still performs 3 playwright-tier iterations with
backoff sleeps of 2 and 4 seconds between them. -/
theorem pw_unavailable_not_immediate_counterexample :
    fetch_ipo_data allExn false launchFailScript =
      (.ok [], [.scraperAttempt 1, .sleep 2, .scraperAttempt 2, .sleep 4, .scraperAttempt 3,
        .pwAttempt 1, .logMissingPlaywright, .sleep 2,
        .pwAttempt 2, .logMissingPlaywright, .sleep 4,
        .pwAttempt 3, .logMissingPlaywright])
    ∧ ((fetch_ipo_data allExn false launchFailScript).2.drop 5).countP Event.isSleep = 2
    ∧ ((fetch_ipo_data allExn false launchFailScript).2.drop 5).countP Event.isPw = 3 :=
  ⟨rfl, rfl, rfl⟩

/-- C5 (amended): if the browser-automation tier is unavailable after the
second tier exhausts its retries, the chain raises no error and returns an
empty list, logging the missing capability, but it still iterates the browser
tier 3 times — each iteration failing at once without launching a browser —
with the usual backoff sleeps between iterations, rather than failing
immediately. -/
theorem pw_unavailable_empty_result (outcomes : Nat → FetchOutcome)
    (scripts : Nat → PwScript)
    (h : ∀ n, n < 3 → scraperAttemptResult (outcomes n) = none) :
    (fetch_ipo_data outcomes false scripts).1 = .ok []
    ∧ pwCount (fetch_ipo_data outcomes false scripts).2 = 3
    ∧ Event.logMissingPlaywright ∈ (fetch_ipo_data outcomes false scripts).2
    ∧ (fetch_ipo_data outcomes false scripts).2.countP
        (fun e => decide (e = Event.browserLaunch)) = 0
    ∧ ((fetch_ipo_data outcomes false scripts).2.drop 5).countP Event.isSleep = 2 := by
  have hp : pwLoop false scripts MAX_RETRIES 0 =
      (.ok [], [.pwAttempt 1, .logMissingPlaywright, .sleep 2,
        .pwAttempt 2, .logMissingPlaywright, .sleep 4,
        .pwAttempt 3, .logMissingPlaywright]) := rfl
  have hsplit := fetch_trace_split_all_fail outcomes false scripts h
  rw [hp] at hsplit
  rw [hsplit]
  refine ⟨rfl, by decide, by decide, by decide, by decide⟩

/-- Witness for C5 (amended) in the all-failures environment. -/
theorem pw_unavailable_empty_result_witness :
    (fetch_ipo_data allExn false launchFailScript).1 = .ok [] :=
  (pw_unavailable_empty_result allExn launchFailScript (fun n _ => rfl)).1

/-! ## C8 -/

/-- C8: in the fingerprint-evading (cloudscraper) tier, only a 200 status
with a valid-JSON body containing the expected top-level `"data"` key counts
as a success (first conjunct: any successful attempt came from such a
response, with its rows parsing); every failed attempt increments the attempt
counter and, while attempts remain, is followed by a backoff sleep of
`2 ^ attempt` seconds, as the full trace shows (second conjunct); and after
the third failure the chain proceeds to the browser tier (third conjunct). -/
theorem scraper_tier_success_and_backoff (outcomes : Nat → FetchOutcome)
    (hasPW : Bool) (scripts : Nat → PwScript) :
    (∀ o r, scraperAttemptResult o = some r →
        ∃ p rows, o = .response 200 (some p) ∧ payloadLookup p "data" = some rows
          ∧ parseBatch rows = .ok r)
    ∧ ((scraperLoop outcomes MAX_RETRIES 0).2 =
        match scraperAttemptResult (outcomes 0) with
        | some _ => [.scraperAttempt 1]
        | none =>
          match scraperAttemptResult (outcomes 1) with
          | some _ => [.scraperAttempt 1, .sleep (2 ^ 1), .scraperAttempt 2]
          | none => [.scraperAttempt 1, .sleep (2 ^ 1), .scraperAttempt 2,
              .sleep (2 ^ 2), .scraperAttempt 3])
    ∧ ((∀ n, n < 3 → scraperAttemptResult (outcomes n) = none) →
        0 < pwCount (fetch_ipo_data outcomes hasPW scripts).2) := by
  refine ⟨?_, ?_, ?_⟩
  · intro o r h
    cases o with
    | exn => simp [scraperAttemptResult] at h
    | response status body =>
      simp only [scraperAttemptResult] at h
      split at h
      · rename_i hst
        cases body with
        | none => simp at h
        | some payload =>
          dsimp only at h
          rcases hl : payloadLookup payload "data" with _ | rows
          · rw [hl] at h; simp at h
          · rw [hl] at h
            dsimp only at h
            rcases hp : parseBatch rows with err | entries
            · rw [hp] at h; simp at h
            · rw [hp] at h
              simp only [Option.some.injEq] at h
              exact ⟨payload, rows, by rw [hst], hl, by rw [hp, h]⟩
      · simp at h
  · rw [scraperLoop_trace]
    rcases h0 : scraperAttemptResult (outcomes 0) with _ | r0 <;>
      rcases h1 : scraperAttemptResult (outcomes 1) with _ | r1 <;>
        rcases h2 : scraperAttemptResult (outcomes 2) with _ | r2 <;> rfl
  · intro hall
    obtain ⟨ps, pd, pge, ple⟩ := pwLoop_counts hasPW scripts
    have hsplit := fetch_trace_split_all_fail outcomes hasPW scripts hall
    rw [hsplit]
    simp only [pwCount, List.countP_append]
    have hsp : List.countP Event.isPw
        ([.scraperAttempt 1, .sleep (2 ^ 1), .scraperAttempt 2,
          .sleep (2 ^ 2), .scraperAttempt 3] : List Event) = 0 := by decide
    rw [hsp]
    omega

/-- Witness for C8 in the all-failures environment: the browser tier runs. -/
theorem scraper_tier_success_and_backoff_witness :
    0 < pwCount (fetch_ipo_data allExn false launchFailScript).2 :=
  (scraper_tier_success_and_backoff allExn false launchFailScript).2.2 (fun n _ => rfl)

/-- Witness for C2 at a concrete list and known-ID set. -/
theorem check_new_exact_order_preserving_witness :
    check_new [goodEntry] [JVal.num 101] = detectNewSpec [goodEntry] [JVal.num 101] :=
  (check_new_exact_order_preserving [goodEntry] [JVal.num 101]).1
